import Mathlib

/- Shallow embedding of the GMAT ionosphere correction engine
   (plugins/EstimationPlugin/src/base/measurement/Ionosphere/Ionosphere.cpp)
   together with theorems checking the documented behaviour of the model.

   Modelling conventions:
   * C++ `Real` (double) is modelled as `ℝ`.
   * The external electron-density provider (`iri_sub__`, called through
     `Ionosphere::ElectronDensity` after a geodetic conversion) is modelled as
     an opaque total function `Vec3 → ℝ` giving the raw provider output at a
     sample position; `ElectronDensity` clamps negative values to zero exactly
     as the source does (Ionosphere.cpp lines 625-627).
   * The engine object is modelled by explicit state records; member mutation
     becomes explicit state passing, and a thrown `MeasurementException` is an
     `Except.error` carrying an `IonoError` tag for the error kind.
   * External string/time utilities (`GmatStringUtil::ToInteger`,
     `ModifiedJulianDate`) are out-of-scope collaborators and are taken as
     parameters of the embedded functions.
-/

/-- 3-vector of reals, modelling GMAT `Rvector3`. -/
structure Vec3 where
  x : ℝ
  y : ℝ
  z : ℝ

namespace Vec3

/-- Componentwise addition. -/
def add (u v : Vec3) : Vec3 := ⟨u.x + v.x, u.y + v.y, u.z + v.z⟩

/-- Componentwise subtraction. -/
def sub (u v : Vec3) : Vec3 := ⟨u.x - v.x, u.y - v.y, u.z - v.z⟩

/-- Scalar multiple. -/
def smul (r : ℝ) (v : Vec3) : Vec3 := ⟨r * v.x, r * v.y, r * v.z⟩

/-- Division of a vector by a scalar. -/
noncomputable def divR (v : Vec3) (r : ℝ) : Vec3 := ⟨v.x / r, v.y / r, v.z / r⟩

/-- Dot product (`operator*` on `Rvector3`). -/
def dot (u v : Vec3) : ℝ := u.x * v.x + u.y * v.y + u.z * v.z

/-- `Rvector3::GetMagnitude`. -/
noncomputable def mag (v : Vec3) : ℝ := Real.sqrt (dot v v)

/-- `Rvector3::GetUnitVector`. -/
noncomputable def unit (v : Vec3) : Vec3 := divR v (mag v)

end Vec3

instance : Add Vec3 := ⟨Vec3.add⟩

instance : Sub Vec3 := ⟨Vec3.sub⟩

@[simp] theorem Vec3.add_def (u v : Vec3) :
    u + v = ⟨u.x + v.x, u.y + v.y, u.z + v.z⟩ := rfl

@[simp] theorem Vec3.sub_def (u v : Vec3) :
    u - v = ⟨u.x - v.x, u.y - v.y, u.z - v.z⟩ := rfl

/-- `Ionosphere::NUM_OF_INTERVALS` (= 200), used as the loop trip count. -/
def NUM_OF_INTERVALS : ℕ := 200

/-- `Ionosphere::IONOSPHERE_MAX_ALTITUDE` (= 2000 km). -/
noncomputable def IONOSPHERE_MAX_ALTITUDE : ℝ := 2000

/-- `GmatPhysicalConstants::SPEED_OF_LIGHT_VACUUM` in m/s. -/
noncomputable def speedOfLight : ℝ := 299792458

/-- `GmatMathConstants::KM_TO_M`. -/
noncomputable def KM_TO_M : ℝ := 1000

/-- `Ionosphere::ElectronDensity` (lines 550-634): the geodetic conversion and
the `iri_sub__` call are abstracted into `provider`; the source clamps a
negative provider density to zero (lines 625-627). -/
noncomputable def ElectronDensity (provider : Vec3 → ℝ) (pos1 : Vec3) : ℝ :=
  if provider pos1 < 0 then 0 else provider pos1

/-- Quadratic coefficient `a = s*s` of the ray/shell intersection
(lines 666-668 / 738-740). -/
noncomputable def ionoQuadA (stationLoc spacecraftLoc : Vec3) : ℝ :=
  Vec3.dot (spacecraftLoc - stationLoc) (spacecraftLoc - stationLoc)

/-- Quadratic coefficient `b = 2 * stationLoc * s` (line 669 / 741). -/
noncomputable def ionoQuadB (stationLoc spacecraftLoc : Vec3) : ℝ :=
  2 * Vec3.dot stationLoc (spacecraftLoc - stationLoc)

/-- Quadratic coefficient
`c = stationLoc*stationLoc - (earthRadius + IONOSPHERE_MAX_ALTITUDE)^2`
(line 670 / 742). -/
noncomputable def ionoQuadC (stationLoc _spacecraftLoc : Vec3) (earthRadius : ℝ) : ℝ :=
  Vec3.dot stationLoc stationLoc - (earthRadius + IONOSPHERE_MAX_ALTITUDE) ^ 2

/-- `discriminant = b*b - 4.0*a*c` (line 672 / 744). -/
noncomputable def ionoDiscriminant (stationLoc spacecraftLoc : Vec3) (earthRadius : ℝ) : ℝ :=
  ionoQuadB stationLoc spacecraftLoc * ionoQuadB stationLoc spacecraftLoc -
    4 * ionoQuadA stationLoc spacecraftLoc * ionoQuadC stationLoc spacecraftLoc earthRadius

/-- Root `d1 = (-b - sqrt(b*b-4ac)) / (2a)` (line 680 / 752). -/
noncomputable def ionoRoot1 (stationLoc spacecraftLoc : Vec3) (earthRadius : ℝ) : ℝ :=
  (-(ionoQuadB stationLoc spacecraftLoc) -
      Real.sqrt (ionoQuadB stationLoc spacecraftLoc * ionoQuadB stationLoc spacecraftLoc -
        4 * ionoQuadA stationLoc spacecraftLoc * ionoQuadC stationLoc spacecraftLoc earthRadius)) /
    (2 * ionoQuadA stationLoc spacecraftLoc)

/-- Root `d2 = (-b + sqrt(b*b-4ac)) / (2a)` (line 681 / 753). -/
noncomputable def ionoRoot2 (stationLoc spacecraftLoc : Vec3) (earthRadius : ℝ) : ℝ :=
  (-(ionoQuadB stationLoc spacecraftLoc) +
      Real.sqrt (ionoQuadB stationLoc spacecraftLoc * ionoQuadB stationLoc spacecraftLoc -
        4 * ionoQuadA stationLoc spacecraftLoc * ionoQuadC stationLoc spacecraftLoc earthRadius)) /
    (2 * ionoQuadA stationLoc spacecraftLoc)

/-- The connecting segment misses the ionospheric shell: the early-return
conditions of `TEC` (lines 673-686) and `BendingAngle` (lines 745-758):
the discriminant is non-positive, or both roots lie on the same side
outside `[0,1]`. -/
def ionoPathMissesShell (stationLoc spacecraftLoc : Vec3) (earthRadius : ℝ) : Prop :=
  ionoDiscriminant stationLoc spacecraftLoc earthRadius ≤ 0 ∨
    ((ionoRoot1 stationLoc spacecraftLoc earthRadius > 1 ∧
        ionoRoot2 stationLoc spacecraftLoc earthRadius > 1) ∨
      (ionoRoot1 stationLoc spacecraftLoc earthRadius < 0 ∧
        ionoRoot2 stationLoc spacecraftLoc earthRadius < 0))

/-- The midpoint-rule loop of `Ionosphere::TEC` (lines 704-711).  The second
component counts the number of `ElectronDensity` (density-provider) calls
made. -/
noncomputable def tecLoop (provider : Vec3 → ℝ) (dR : Vec3) :
    ℕ → Vec3 → ℝ × ℕ → ℝ × ℕ
  | 0, _, acc => acc
  | n + 1, p1, (tec, calls) =>
    let p2 := p1 + dR
    let electdensity := ElectronDensity provider (Vec3.divR (p1 + p2) 2)
    let ds := Vec3.mag (p2 - p1) * KM_TO_M
    tecLoop provider dR n p2 (tec + electdensity * ds, calls + 1)

/-- The integration part of `Ionosphere::TEC` after the shell-intersection
clipping (lines 688-711): roots are clamped to `[0,1]`, the clipped segment is
split into `NUM_OF_INTERVALS` equal intervals and integrated by the midpoint
rule. -/
noncomputable def tecIntegrate (provider : Vec3 → ℝ)
    (stationLoc spacecraftLoc : Vec3) (earthRadius : ℝ) : ℝ × ℕ :=
  let s := spacecraftLoc - stationLoc
  let d1 := max (ionoRoot1 stationLoc spacecraftLoc earthRadius) 0
  let d2 := min (ionoRoot2 stationLoc spacecraftLoc earthRadius) 1
  let start := stationLoc + Vec3.smul d1 s
  let endPt := stationLoc + Vec3.smul d2 s
  let dR := Vec3.divR (endPt - start) 200
  tecLoop provider dR NUM_OF_INTERVALS start (0, 0)

/-- `Ionosphere::TEC` (lines 645-727), instrumented: the first component is
the returned TEC value, the second counts density-provider calls. -/
noncomputable def TECfull (provider : Vec3 → ℝ)
    (stationLoc spacecraftLoc : Vec3) (earthRadius : ℝ) : ℝ × ℕ :=
  if ionoDiscriminant stationLoc spacecraftLoc earthRadius ≤ 0 then (0, 0)
  else if (ionoRoot1 stationLoc spacecraftLoc earthRadius > 1 ∧
        ionoRoot2 stationLoc spacecraftLoc earthRadius > 1) ∨
      (ionoRoot1 stationLoc spacecraftLoc earthRadius < 0 ∧
        ionoRoot2 stationLoc spacecraftLoc earthRadius < 0) then (0, 0)
  else tecIntegrate provider stationLoc spacecraftLoc earthRadius

/-- The value returned by `Ionosphere::TEC`. -/
noncomputable def TEC (provider : Vec3 → ℝ)
    (stationLoc spacecraftLoc : Vec3) (earthRadius : ℝ) : ℝ :=
  (TECfull provider stationLoc spacecraftLoc earthRadius).1

/-- The backward-marching refraction loop of `Ionosphere::BendingAngle`
(lines 792-814).  State: current position `r_i1`, current incidence angle
`theta_i1`, current refractive index `n_i1`, accumulated correction
`dtheta_i1`, and the density-provider call count.  On exhaustion it returns
`dbeta = -dtheta_i1` (line 816) paired with the call count. -/
noncomputable def bendLoop (provider : Vec3 → ℝ) (freq : ℝ) (rangeVec dR : Vec3) :
    ℕ → Vec3 → ℝ → ℝ → ℝ → ℕ → ℝ × ℕ
  | 0, _, _, _, dtheta_i1, calls => (-dtheta_i1, calls)
  | n + 1, r_i1, theta_i1, n_i1, dtheta_i1, calls =>
    let r_i := r_i1 - dR
    let density_i := ElectronDensity provider r_i
    let n_i := 1 - 40.3 * density_i / (freq * freq)
    let dtheta := ((n_i1 - n_i) / n_i) * Real.tan theta_i1
    let dtheta_i1' := dtheta_i1 + dtheta
    let theta_i1' := Real.arccos (Vec3.dot (Vec3.unit rangeVec) (Vec3.unit r_i)) - dtheta_i1'
    bendLoop provider freq rangeVec dR n r_i theta_i1' n_i dtheta_i1' (calls + 1)

/-- The integration part of `Ionosphere::BendingAngle` after the clipping
(lines 760-818): initial incidence angle at the shell exit point, initial
density/refractive index, then the 200-step backward march. -/
noncomputable def bendIntegrate (provider : Vec3 → ℝ)
    (stationLoc spacecraftLoc : Vec3) (earthRadius waveLength : ℝ) : ℝ × ℕ :=
  let s := spacecraftLoc - stationLoc
  let d1 := max (ionoRoot1 stationLoc spacecraftLoc earthRadius) 0
  let d2 := min (ionoRoot2 stationLoc spacecraftLoc earthRadius) 1
  let start := stationLoc + Vec3.smul d1 s
  let endPt := stationLoc + Vec3.smul d2 s
  let rangeVec := endPt - start
  let dR := Vec3.divR rangeVec 200
  let freq := speedOfLight / waveLength
  let theta_i1 := Real.arccos (Vec3.dot (Vec3.unit rangeVec) (Vec3.unit endPt))
  let density_i1 := ElectronDensity provider endPt
  let n_i1 := 1 - 40.3 * density_i1 / (freq * freq)
  bendLoop provider freq rangeVec dR NUM_OF_INTERVALS endPt theta_i1 n_i1 0 1

/-- `Ionosphere::BendingAngle` (lines 733-819), instrumented with the
density-provider call count. -/
noncomputable def BendingAngleFull (provider : Vec3 → ℝ)
    (stationLoc spacecraftLoc : Vec3) (earthRadius waveLength : ℝ) : ℝ × ℕ :=
  if ionoDiscriminant stationLoc spacecraftLoc earthRadius ≤ 0 then (0, 0)
  else if (ionoRoot1 stationLoc spacecraftLoc earthRadius > 1 ∧
        ionoRoot2 stationLoc spacecraftLoc earthRadius > 1) ∨
      (ionoRoot1 stationLoc spacecraftLoc earthRadius < 0 ∧
        ionoRoot2 stationLoc spacecraftLoc earthRadius < 0) then (0, 0)
  else bendIntegrate provider stationLoc spacecraftLoc earthRadius waveLength

/-- The value returned by `Ionosphere::BendingAngle`. -/
noncomputable def BendingAngle (provider : Vec3 → ℝ)
    (stationLoc spacecraftLoc : Vec3) (earthRadius waveLength : ℝ) : ℝ :=
  (BendingAngleFull provider stationLoc spacecraftLoc earthRadius waveLength).1

/-- Claim C1: for every station position and spacecraft position whose
connecting segment does not intersect the ionospheric shell of radius
`earthRadius + 2000` km (discriminant `b^2 - 4ac ≤ 0`, or both quadratic roots
on the same side outside `[0,1]`), `TEC()` returns exactly 0 and
`BendingAngle()` returns exactly 0, with no density-provider call made
(the instrumented call counts are 0). -/
theorem tec_and_bendingAngle_zero_when_path_misses_shell
    (provider : Vec3 → ℝ) (stationLoc spacecraftLoc : Vec3)
    (earthRadius waveLength : ℝ)
    (h : ionoPathMissesShell stationLoc spacecraftLoc earthRadius) :
    TECfull provider stationLoc spacecraftLoc earthRadius = (0, 0) ∧
      BendingAngleFull provider stationLoc spacecraftLoc earthRadius waveLength = (0, 0) := by
  unfold TECfull BendingAngleFull
  by_cases hd : ionoDiscriminant stationLoc spacecraftLoc earthRadius ≤ 0
  · rw [if_pos hd, if_pos hd]
    exact ⟨rfl, rfl⟩
  · rcases h with h | h
    · exact absurd h hd
    · rw [if_neg hd, if_neg hd, if_pos h, if_pos h]
      exact ⟨rfl, rfl⟩

/-- Concrete instantiation of the previous theorem: a horizontal segment far
above the shell (station at 10000 km altitude over the pole) misses the shell
for Earth radius 6378 km, so both corrections are exactly zero and the density
provider is never called. -/
theorem tec_and_bendingAngle_zero_when_path_misses_shell_witness :
    ionoPathMissesShell ⟨0, 0, 10000⟩ ⟨1, 0, 10000⟩ 6378 ∧
      (TECfull (fun _ => 37) ⟨0, 0, 10000⟩ ⟨1, 0, 10000⟩ 6378 = (0, 0) ∧
        BendingAngleFull (fun _ => 37) ⟨0, 0, 10000⟩ ⟨1, 0, 10000⟩ 6378 0.1 = (0, 0)) := by
  have hmiss : ionoPathMissesShell ⟨0, 0, 10000⟩ ⟨1, 0, 10000⟩ 6378 := by
    left
    unfold ionoDiscriminant ionoQuadA ionoQuadB ionoQuadC IONOSPHERE_MAX_ALTITUDE
    simp only [Vec3.sub_def, Vec3.dot]
    norm_num
  exact ⟨hmiss,
    tec_and_bendingAngle_zero_when_path_misses_shell (fun _ => 37) _ _ _ 0.1 hmiss⟩

/-- Error kinds distinguished by the engine; a thrown `MeasurementException`
is modelled as `Except.error` carrying the kind (spec section 7 taxonomy,
restricted to the kinds raised in the embedded code). -/
inductive IonoError where
  | dataOutOfRange
  | recordNotFound
  | unsupportedModel
deriving DecidableEq, Repr

/-- Engine state used by the physics model `Ionosphere::CalculateIRI2007`.
`yyyy`/`mmdd` are the epoch's Gregorian pieces set by `SetTime` (lines
467-479, via the external time converter); the four window bounds are packed
`YYYYMMDD` integers set during initialization; `igrz_WarningCount` is the
one-time warning counter (line 129). -/
structure IriState where
  waveLength : ℝ
  epoch : ℝ
  yyyy : ℤ
  mmdd : ℤ
  stationLoc : Vec3
  spacecraftLoc : Vec3
  earthRadius : ℝ
  igrz_yyyymmddMin : ℤ
  igrz_yyyymmddMax : ℤ
  ap_yyyymmddMin : ℤ
  ap_yyyymmddMax : ℤ
  igrz_WarningCount : ℕ

/-- `mjdate = yyyy * 10000 + mmdd` (line 883). -/
def mjdateOf (st : IriState) : ℤ := st.yyyy * 10000 + st.mmdd

/-- The ig_rz out-of-range test
`(igrz_yyyymmddMin > mjdate) || (mjdate >= igrz_yyyymmddMax)` (line 887). -/
def igrzOutOfRange (st : IriState) : Bool :=
  (st.igrz_yyyymmddMin > mjdateOf st) || (mjdateOf st ≥ st.igrz_yyyymmddMax)

/-- The ap out-of-range test
`(ap_yyyymmddMin > mjdate) || (mjdate >= ap_yyyymmddMax)` (line 920). -/
def apOutOfRange (st : IriState) : Bool :=
  (st.ap_yyyymmddMin > mjdateOf st) || (mjdateOf st ≥ st.ap_yyyymmddMax)

/-- `Ionosphere::CalculateIRI2007` (lines 874-964), for an initialized engine.
Result: (post state, whether the one-time ig_rz warning was printed on this
call, and either the fatal out-of-range error or the (range, angle, time)
correction triple).  The source first runs the ig_rz warning block (lines
887-917: warn and bump the counter only when the counter is 0), then throws
when the epoch is outside the ap window (lines 920-941), and otherwise
computes `freq = c/waveLength`, `tec = TEC()`, `drho = 40.3*tec/freq^2`,
`dphi = BendingAngle()`, `dtime = drho/c` (lines 943-949). -/
noncomputable def CalculateIRI2007 (provider : Vec3 → ℝ) (st : IriState) :
    IriState × Bool × Except IonoError (ℝ × ℝ × ℝ) :=
  let warned := igrzOutOfRange st && (st.igrz_WarningCount == 0)
  let st' := if warned then { st with igrz_WarningCount := st.igrz_WarningCount + 1 } else st
  if apOutOfRange st then
    (st', warned, Except.error IonoError.dataOutOfRange)
  else
    let freq := speedOfLight / st.waveLength
    let tec := TEC provider st.stationLoc st.spacecraftLoc st.earthRadius
    let drho := 40.3 * tec / (freq * freq)
    let dphi := BendingAngle provider st.stationLoc st.spacecraftLoc st.earthRadius st.waveLength
    let dtime := drho / speedOfLight
    (st', warned, Except.ok (drho, dphi, dtime))

/-- Claim C2: for every context with wavelength set and epoch inside the
short-period (ap) window, `CalculateIRI2007()` returns the ordered triple
(rangeCorrection, angleCorrection, timeCorrection) with
`frequency = c / wavelength`, `rangeCorrection = 40.3 * TEC() / frequency^2`,
`angleCorrection = BendingAngle()` and
`timeCorrection = rangeCorrection / c`. -/
theorem calculateIRI2007_formula (provider : Vec3 → ℝ) (st : IriState)
    (_hwl : st.waveLength > 0)
    (hmin : st.ap_yyyymmddMin ≤ mjdateOf st) (hmax : mjdateOf st < st.ap_yyyymmddMax) :
    (CalculateIRI2007 provider st).2.2 =
      Except.ok
        (40.3 * TEC provider st.stationLoc st.spacecraftLoc st.earthRadius /
            ((speedOfLight / st.waveLength) * (speedOfLight / st.waveLength)),
          BendingAngle provider st.stationLoc st.spacecraftLoc st.earthRadius st.waveLength,
          40.3 * TEC provider st.stationLoc st.spacecraftLoc st.earthRadius /
              ((speedOfLight / st.waveLength) * (speedOfLight / st.waveLength)) /
            speedOfLight) := by
  have hap : apOutOfRange st = false := by
    unfold apOutOfRange
    simp only [Bool.or_eq_false_iff, decide_eq_false_iff_not, not_lt, not_le]
    exact ⟨hmin, hmax⟩
  unfold CalculateIRI2007
  rw [hap]
  simp

/-- Concrete instantiation of `calculateIRI2007_formula`: for a state whose
epoch date 2004-06-15 lies inside the ap window [2000-01-01, 2025-01-01), the
correction triple is exactly the documented formula. -/
theorem calculateIRI2007_formula_witness :
    (20000101 : ℤ) ≤ mjdateOf (IriState.mk 0.1 100 2004 615 ⟨0, 0, 10000⟩ ⟨1, 0, 10000⟩ 6378
        20000101 20250101 20000101 20250101 0) ∧
      (CalculateIRI2007 (fun _ => 37)
          (IriState.mk 0.1 100 2004 615 ⟨0, 0, 10000⟩ ⟨1, 0, 10000⟩ 6378
            20000101 20250101 20000101 20250101 0)).2.2 =
        Except.ok
          (40.3 * TEC (fun _ => 37) ⟨0, 0, 10000⟩ ⟨1, 0, 10000⟩ 6378 /
              ((speedOfLight / 0.1) * (speedOfLight / 0.1)),
            BendingAngle (fun _ => 37) ⟨0, 0, 10000⟩ ⟨1, 0, 10000⟩ 6378 0.1,
            40.3 * TEC (fun _ => 37) ⟨0, 0, 10000⟩ ⟨1, 0, 10000⟩ 6378 /
                ((speedOfLight / 0.1) * (speedOfLight / 0.1)) / speedOfLight) := by
  constructor
  · unfold mjdateOf
    norm_num
  · exact calculateIRI2007_formula (fun _ => 37) _ (by norm_num)
      (by unfold mjdateOf; norm_num) (by unfold mjdateOf; norm_num)

/-- Claim C4: the physics-model correction raises the fatal out-of-range
error if and only if the epoch's packed `YYYYMMDD` date is outside the
short-period (ap) window; an epoch outside the long-period (ig_rz) window
alone is non-fatal and produces a warning emitted exactly once per engine
instance (it is emitted precisely when the epoch is outside the ig_rz window
and the warning counter is still 0, and a call that emitted it leaves a state
on which no later call emits it again), after which computation proceeds. -/
theorem calculateIRI2007_range_handling (provider : Vec3 → ℝ) (st : IriState) :
    ((CalculateIRI2007 provider st).2.2 = Except.error IonoError.dataOutOfRange ↔
        apOutOfRange st = true) ∧
      ((CalculateIRI2007 provider st).2.1 = true ↔
        (igrzOutOfRange st = true ∧ st.igrz_WarningCount = 0)) ∧
      (apOutOfRange st = false →
        ∃ v, (CalculateIRI2007 provider st).2.2 = Except.ok v) ∧
      ((CalculateIRI2007 provider st).2.1 = true →
        (CalculateIRI2007 provider ((CalculateIRI2007 provider st).1)).2.1 = false) := by
  refine ⟨?_, ?_, ?_, ?_⟩
  · unfold CalculateIRI2007
    by_cases hap : apOutOfRange st
    · rw [if_pos hap]
      simp [hap]
    · rw [if_neg hap]
      simp only [Bool.not_eq_true] at hap
      simp [hap]
  · unfold CalculateIRI2007
    by_cases hap : apOutOfRange st
    · rw [if_pos hap]
      simp
    · rw [if_neg hap]
      simp
  · intro hap
    unfold CalculateIRI2007
    rw [hap]
    simp
  · intro hwarn
    have hw : igrzOutOfRange st = true ∧ st.igrz_WarningCount = 0 := by
      revert hwarn
      unfold CalculateIRI2007
      by_cases hap : apOutOfRange st
      · rw [if_pos hap]; simp
      · rw [if_neg hap]; simp
    have hstate : (CalculateIRI2007 provider st).1 =
        { st with igrz_WarningCount := st.igrz_WarningCount + 1 } := by
      unfold CalculateIRI2007
      by_cases hap : apOutOfRange st
      · rw [if_pos hap]
        simp [hw.1, hw.2]
      · rw [if_neg hap]
        simp [hw.1, hw.2]
    rw [hstate]
    unfold CalculateIRI2007
    by_cases hap2 : apOutOfRange { st with igrz_WarningCount := st.igrz_WarningCount + 1 }
    · rw [if_pos hap2]
      simp
    · rw [if_neg hap2]
      simp

/-- Concrete instantiation of `calculateIRI2007_range_handling`: with the ap
window [2000-01-01, 2025-01-01), a state at date 1999-12-31 gets the fatal
error; a state at 2004-06-15 with the ig_rz window ending 2003-01-01 and a
fresh warning counter emits the warning on the first call and not on the
second. -/
theorem calculateIRI2007_range_handling_witness :
    (CalculateIRI2007 (fun _ => 37)
          (IriState.mk 0.1 100 1999 1231 ⟨0, 0, 10000⟩ ⟨1, 0, 10000⟩ 6378
            20000101 20250101 20000101 20250101 0)).2.2 =
        Except.error IonoError.dataOutOfRange ∧
      (CalculateIRI2007 (fun _ => 37)
          (IriState.mk 0.1 100 2004 615 ⟨0, 0, 10000⟩ ⟨1, 0, 10000⟩ 6378
            20000101 20030101 20000101 20250101 0)).2.1 = true ∧
      (CalculateIRI2007 (fun _ => 37)
          ((CalculateIRI2007 (fun _ => 37)
              (IriState.mk 0.1 100 2004 615 ⟨0, 0, 10000⟩ ⟨1, 0, 10000⟩ 6378
                20000101 20030101 20000101 20250101 0)).1)).2.1 = false := by
  have h1 := calculateIRI2007_range_handling (fun _ => 37)
    (IriState.mk 0.1 100 1999 1231 ⟨0, 0, 10000⟩ ⟨1, 0, 10000⟩ 6378
      20000101 20250101 20000101 20250101 0)
  have h2 := calculateIRI2007_range_handling (fun _ => 37)
    (IriState.mk 0.1 100 2004 615 ⟨0, 0, 10000⟩ ⟨1, 0, 10000⟩ 6378
      20000101 20030101 20000101 20250101 0)
  refine ⟨h1.1.mpr ?_, ?_, ?_⟩
  · unfold apOutOfRange mjdateOf
    decide
  · exact h2.2.1.mpr ⟨by unfold igrzOutOfRange mjdateOf; decide, rfl⟩
  · exact h2.2.2.2 (h2.2.1.mpr ⟨by unfold igrzOutOfRange mjdateOf; decide, rfl⟩)

/-- Claim C10: the physics model's date-window tests are half-open at the
top: an epoch whose packed `YYYYMMDD` date equals the window minimum is
treated as in range (no fatal error at `ap_yyyymmddMin`, no warning at
`igrz_yyyymmddMin`), while a date exactly equal to the window maximum is
treated as out of range (fatal error at `ap_yyyymmddMax`, warning at
`igrz_yyyymmddMax`). -/
theorem calculateIRI2007_windows_half_open (provider : Vec3 → ℝ) (st : IriState) :
    (mjdateOf st = st.ap_yyyymmddMin → st.ap_yyyymmddMin < st.ap_yyyymmddMax →
        ∃ v, (CalculateIRI2007 provider st).2.2 = Except.ok v) ∧
      (mjdateOf st = st.ap_yyyymmddMax →
        (CalculateIRI2007 provider st).2.2 = Except.error IonoError.dataOutOfRange) ∧
      (mjdateOf st = st.igrz_yyyymmddMin → st.igrz_yyyymmddMin < st.igrz_yyyymmddMax →
        (CalculateIRI2007 provider st).2.1 = false) ∧
      (mjdateOf st = st.igrz_yyyymmddMax → st.igrz_WarningCount = 0 →
        (CalculateIRI2007 provider st).2.1 = true) := by
  have hmain := calculateIRI2007_range_handling provider st
  refine ⟨?_, ?_, ?_, ?_⟩
  · intro heq hlt
    apply hmain.2.2.1
    unfold apOutOfRange
    simp only [Bool.or_eq_false_iff, decide_eq_false_iff_not, not_lt, not_le]
    omega
  · intro heq
    apply hmain.1.mpr
    unfold apOutOfRange
    simp only [Bool.or_eq_true, decide_eq_true_eq]
    omega
  · intro heq hlt
    rcases h : (CalculateIRI2007 provider st).2.1 with _ | _
    · rfl
    · exfalso
      have := (hmain.2.1.mp h).1
      unfold igrzOutOfRange at this
      simp only [Bool.or_eq_true, decide_eq_true_eq] at this
      omega
  · intro heq hcnt
    apply hmain.2.1.mpr
    refine ⟨?_, hcnt⟩
    unfold igrzOutOfRange
    simp only [Bool.or_eq_true, decide_eq_true_eq]
    omega

/-- Concrete instantiation of `calculateIRI2007_windows_half_open` at the
four boundary situations, with windows [2000-01-01, 2025-01-01) for ap and
[2000-01-01, 2003-01-01) for ig_rz. -/
theorem calculateIRI2007_windows_half_open_witness :
    (∃ v, (CalculateIRI2007 (fun _ => 37)
        (IriState.mk 0.1 100 2000 101 ⟨0, 0, 10000⟩ ⟨1, 0, 10000⟩ 6378
          19990101 20250101 20000101 20250101 0)).2.2 = Except.ok v) ∧
      (CalculateIRI2007 (fun _ => 37)
          (IriState.mk 0.1 100 2025 101 ⟨0, 0, 10000⟩ ⟨1, 0, 10000⟩ 6378
            19990101 20300101 20000101 20250101 0)).2.2 =
        Except.error IonoError.dataOutOfRange ∧
      (CalculateIRI2007 (fun _ => 37)
          (IriState.mk 0.1 100 2000 101 ⟨0, 0, 10000⟩ ⟨1, 0, 10000⟩ 6378
            20000101 20030101 19990101 20250101 0)).2.1 = false ∧
      (CalculateIRI2007 (fun _ => 37)
          (IriState.mk 0.1 100 2003 101 ⟨0, 0, 10000⟩ ⟨1, 0, 10000⟩ 6378
            20000101 20030101 19990101 20250101 0)).2.1 = true := by
  refine ⟨?_, ?_, ?_, ?_⟩
  · exact (calculateIRI2007_windows_half_open (fun _ => 37) _).1
      (by unfold mjdateOf; norm_num) (by norm_num)
  · exact (calculateIRI2007_windows_half_open (fun _ => 37) _).2.1
      (by unfold mjdateOf; norm_num)
  · exact (calculateIRI2007_windows_half_open (fun _ => 37) _).2.2.1
      (by unfold mjdateOf; norm_num) (by norm_num)
  · exact (calculateIRI2007_windows_half_open (fun _ => 37) _).2.2.2
      (by unfold mjdateOf; norm_num) rfl

/-- Two-digit-year normalization of `Ionosphere::GetTRK223Time`
(lines 1128-1137): `year >= 69 && year < 1000` maps into the 1900s,
`year < 69` into the 2000s. -/
def trk223YearNorm (year : ℤ) : ℤ :=
  if 69 ≤ year ∧ year < 1000 then year + 1900
  else if year < 69 then year + 2000
  else year

/-- Two-digit-year normalization of `Ionosphere::GetAPTimeRange`
(lines 306-309 and 327-330): `year >= 58` maps into the 1900s, else the
2000s. -/
def apYearNorm (year : ℤ) : ℤ :=
  if 58 ≤ year then 1900 + year else 2000 + year

/-- Packed `YYYYMMDD` bound computed by `Ionosphere::GetAPTimeRange` from a
parsed `(year, month, day)` line of ap.dat (lines 310 and 331). -/
def apPackDate (year month day : ℤ) : ℤ :=
  apYearNorm year * 10000 + month * 100 + day

/-- The numeric fields of a fixed-width TRK-2-23 time token
`YY MM DD HH MM[ SS.sss]`, as extracted by the `substr`/`ToInteger` calls of
`GetTRK223Time` (lines 1129-1150); `year` is the raw two-digit value before
normalization. -/
structure TimeTok where
  year : ℤ
  month : ℤ
  day : ℤ
  hour : ℤ
  minute : ℤ
  second : ℝ

/-- Type of the external `ModifiedJulianDate` calendar-to-MJD routine
(an out-of-scope time-system utility): arguments are year, month, day, hour,
minute, second. -/
def MjdFn : Type := ℤ → ℤ → ℤ → ℤ → ℤ → ℝ → ℝ

/-- `Ionosphere::GetTRK223Time` (lines 1123-1162): normalize the two-digit
year and convert through `ModifiedJulianDate`. -/
def GetTRK223Time (mjdOf : MjdFn) (tok : TimeTok) : ℝ :=
  mjdOf (trk223YearNorm tok.year) tok.month tok.day tok.hour tok.minute tok.second

/-- One row of the TRK-2-23 record table `DSNDatabase` (a `StringArray` of at
least 8 fields, indices 0-7).  `coefs` models the field-2 coefficient string
after `GmatStringUtil::ToRealArray`, and the two time tokens model fields 4
and 5 after the fixed-width `substr`/`ToInteger` extraction. -/
structure TRKRecord where
  signalType : String
  modelType : String
  coefs : List ℝ
  recordType : String
  startTok : TimeTok
  endTok : TimeTok
  facility : String
  spacecraft : String

/-- Placeholder row (out-of-bounds accesses `DSNDatabase[i]` never happen in
the proved paths; `List.getD` needs a default). -/
noncomputable def defaultTRKRecord : TRKRecord :=
  ⟨"", "", [], "", ⟨0, 0, 0, 0, 0, 0⟩, ⟨0, 0, 0, 0, 0, 0⟩, "", ""⟩

/-- Engine state read and written by `Ionosphere::CalculateTRK223`. -/
structure TRKState where
  waveLength : ℝ
  epoch : ℝ
  groundStationId : String
  spacecraftId : ℤ

/-- The GDS/CAN/MAD abbreviation expansion of `CalculateTRK223`
(lines 991-1005), acting on `groundStationId`. -/
def expandAbbrev (gs : String) : String :=
  if gs = "GDS" then "DSN(C10)"
  else if gs = "CAN" then "DSN(C40)"
  else if gs = "MAD" then "DSN(C60)"
  else gs

/-- The `DSN(...)` wrapping of `groundStationId` (lines 1017-1024), applied
after abbreviation expansion: ids shorter than 3 characters get a leading
`0`. -/
def canonStationId (gs : String) : String :=
  if (expandAbbrev gs).length < 3 then "DSN(0" ++ expandAbbrev gs ++ ")"
  else "DSN(" ++ expandAbbrev gs ++ ")"

/-- The station-number parse of lines 1007-1015: strip a leading `C` if
present and convert with the external `GmatStringUtil::ToInteger` (modelled
by `toInt`).  When the conversion fails the C++ reads an uninitialized local;
that unspecified value is modelled by the parameter `junk`. -/
def stationNumberOf (toInt : String → Option ℤ) (junk : ℤ) (gs : String) : ℤ :=
  let e := expandAbbrev gs
  if e.take 1 = "C" then (toInt (e.drop 1)).getD junk else (toInt e).getD junk

/-- The complex-name assignment of lines 1026-1037: station number `< 30` is
complex C10, `30 <= n < 50` is C40, `>= 50` is C60.  (The assignment in the
abbreviation branch, lines 991-1005, is always overwritten here.) -/
def complexNameOf (toInt : String → Option ℤ) (junk : ℤ) (gs : String) : String :=
  let n := stationNumberOf toInt junk gs
  if n < 30 then "DSN(C10)"
  else if n < 50 then "DSN(C40)"
  else "DSN(C60)"

/-- The spacecraft key `"SCID(" + ToString(spacecraftId) + ")"`
(line 1039). -/
def scNameOf (spacecraftId : ℤ) : String :=
  "SCID(" ++ toString spacecraftId ++ ")"

/-- The TRIG loop of `Ionosphere::TRK223Solver` (lines 1222-1227):
`for (i = 2; i < coefs.size(); i++) { drho += coefs[i]*cos(T*count) +
coefs[i+1]*sin(T*count); count++; i++; }` (so `i` advances by 2 per
iteration).  Out-of-bounds vector reads (C++ UB) are modelled by
`List.getD` with default 0. -/
noncomputable def trigLoop (coefs : List ℝ) (T : ℝ) (i count : ℕ) (drho : ℝ) : ℝ :=
  if _h : i < coefs.length then
    trigLoop coefs T (i + 2) (count + 1)
      (drho + coefs.getD i 0 * Real.cos (T * (count : ℝ)) +
        coefs.getD (i + 1) 0 * Real.sin (T * (count : ℝ)))
  else drho
termination_by coefs.length - i
decreasing_by omega

/-- The TRIG branch of `TRK223Solver` (lines 1215-1229):
`T = TWO_PI*(epochTime*86400 - epochStart*86400)/coefs[0]`, the constant term
`coefs[1]`, then the loop starting at `i = 2`, `count = 1`. -/
noncomputable def trigEval (coefs : List ℝ) (epochTime epochStart : ℝ) : ℝ :=
  let timeV := epochTime * 86400
  let spanStart := epochStart * 86400
  let T := 2 * Real.pi * (timeV - spanStart) / coefs.getD 0 0
  trigLoop coefs T 2 1 (coefs.getD 1 0)

/-- The NRMPOW loop of `TRK223Solver` (lines 1239-1242). -/
noncomputable def nrmpowLoop (coefs : List ℝ) (T : ℝ) (i : ℕ) (drho : ℝ) : ℝ :=
  if _h : i < coefs.length then
    nrmpowLoop coefs T (i + 1) (drho + coefs.getD i 0 * T ^ i)
  else drho
termination_by coefs.length - i
decreasing_by omega

/-- The NRMPOW branch of `TRK223Solver` (lines 1230-1244): time normalized to
`[-1, 1]` across the validity window, then a power series in ascending
powers. -/
noncomputable def nrmpowEval (coefs : List ℝ) (epochTime epochStart epochEnd : ℝ) : ℝ :=
  let timeV := epochTime * 86400
  let spanStart := epochStart * 86400
  let spanEnd := epochEnd * 86400
  let T := 2 * ((timeV - spanStart) / (spanEnd - spanStart)) - 1
  nrmpowLoop coefs T 0 0

/-- `Ionosphere::TRK223Solver` (lines 1177-1259): evaluate the record's
model at the epoch and rescale by `(freqSBand/freq)^2` with
`freqSBand = 2295 MHz` and `freq = c/waveLength`; an unknown model tag is the
fatal `UnsupportedModel` error (lines 1245-1248). -/
noncomputable def TRK223Solver (mjdOf : MjdFn) (r : TRKRecord)
    (waveLength epochTime : ℝ) : Except IonoError ℝ :=
  let coefs := r.coefs
  let epochStart := GetTRK223Time mjdOf r.startTok
  let epochEnd := GetTRK223Time mjdOf r.endTok
  let drhoE : Except IonoError ℝ :=
    if r.modelType = "CONST" then Except.ok (coefs.getD 0 0)
    else if r.modelType = "TRIG" then Except.ok (trigEval coefs epochTime epochStart)
    else if r.modelType = "NRMPOW" then
      Except.ok (nrmpowEval coefs epochTime epochStart epochEnd)
    else Except.error IonoError.unsupportedModel
  match drhoE with
  | Except.error e => Except.error e
  | Except.ok drho =>
    let freq := speedOfLight / waveLength
    let freqSBand := 2295.0 * 1000000.0
    Except.ok (drho * (freqSBand / freq) * (freqSBand / freq))

/-- One iteration of the record-table scan of `CalculateTRK223`
(lines 1045-1073): nested conditionals on spacecraft key, signal type,
facility key (complex first, else exact station), validity window and the
`CHPART` record-type marker; a complex-level match stores the index in
`ionoLine[0]` (first accumulator component), a station-level match in
`ionoLine[1]` (second component). -/
noncomputable def trkScanStep (mjdOf : MjdFn) (complexName stationName scName : String)
    (epoch : ℝ) (r : TRKRecord) (i : ℕ) (acc : Option ℕ × Option ℕ) :
    Option ℕ × Option ℕ :=
  if r.spacecraft = scName then
    if r.signalType = "DOPRNG" ∨ r.signalType = "RANGE" then
      if r.facility = complexName then
        if GetTRK223Time mjdOf r.startTok ≤ epoch ∧ GetTRK223Time mjdOf r.endTok ≥ epoch then
          if r.recordType = "CHPART" then (some i, acc.2) else acc
        else acc
      else if r.facility = stationName then
        if GetTRK223Time mjdOf r.startTok ≤ epoch ∧ GetTRK223Time mjdOf r.endTok ≥ epoch then
          if r.recordType = "CHPART" then (acc.1, some i) else acc
        else acc
      else acc
    else acc
  else acc

/-- The full scan loop of `CalculateTRK223` (lines 1042-1073), accumulating
the last matching indices. -/
noncomputable def trkScanAux (mjdOf : MjdFn) (complexName stationName scName : String)
    (epoch : ℝ) : List TRKRecord → ℕ → Option ℕ × Option ℕ → Option ℕ × Option ℕ
  | [], _, acc => acc
  | r :: rest, i, acc =>
    trkScanAux mjdOf complexName stationName scName epoch rest (i + 1)
      (trkScanStep mjdOf complexName stationName scName epoch r i acc)

/-- The scan performed by `CalculateTRK223` on state `st`: keys are the
canonicalized complex name, the canonicalized (already mutated) station id
and the spacecraft key. -/
noncomputable def trkScan (mjdOf : MjdFn) (toInt : String → Option ℤ) (junk : ℤ)
    (db : List TRKRecord) (st : TRKState) : Option ℕ × Option ℕ :=
  trkScanAux mjdOf (complexNameOf toInt junk st.groundStationId)
    (canonStationId st.groundStationId) (scNameOf st.spacecraftId) st.epoch db 0 (none, none)

/-- The result part of `CalculateTRK223` (lines 1075-1104): no complex-level
match is the fatal `RecordNotFound` error; otherwise the complex correction,
plus the station correction when a station-level match exists; outputs
`(drho, 0, drho/c)`. -/
noncomputable def trk223Result (mjdOf : MjdFn) (toInt : String → Option ℤ) (junk : ℤ)
    (db : List TRKRecord) (st : TRKState) : Except IonoError (ℝ × ℝ × ℝ) :=
  match trkScan mjdOf toInt junk db st with
  | (none, _) => Except.error IonoError.recordNotFound
  | (some i, sIdx) =>
    match TRK223Solver mjdOf (db.getD i defaultTRKRecord) st.waveLength st.epoch with
    | Except.error e => Except.error e
    | Except.ok corr0 =>
      match sIdx with
      | none => Except.ok (corr0, 0, corr0 / speedOfLight)
      | some j =>
        match TRK223Solver mjdOf (db.getD j defaultTRKRecord) st.waveLength st.epoch with
        | Except.error e => Except.error e
        | Except.ok corr1 =>
          Except.ok (corr0 + corr1, 0, (corr0 + corr1) / speedOfLight)

/-- `Ionosphere::CalculateTRK223` (lines 977-1105).  The member
`groundStationId` is overwritten in place before the scan (lines 991-1024)
and never restored, so the post state carries the canonicalized id; the
correction (or thrown error) is the second component. -/
noncomputable def CalculateTRK223 (mjdOf : MjdFn) (toInt : String → Option ℤ) (junk : ℤ)
    (db : List TRKRecord) (st : TRKState) :
    TRKState × Except IonoError (ℝ × ℝ × ℝ) :=
  ({ st with groundStationId := canonStationId st.groundStationId },
    trk223Result mjdOf toInt junk db st)

/-- A row satisfies the complex-level match conditions of the scan
(lines 1047-1059). -/
def complexMatches (mjdOf : MjdFn) (complexName scName : String) (epoch : ℝ)
    (r : TRKRecord) : Prop :=
  r.spacecraft = scName ∧ (r.signalType = "DOPRNG" ∨ r.signalType = "RANGE") ∧
    r.facility = complexName ∧
    GetTRK223Time mjdOf r.startTok ≤ epoch ∧ GetTRK223Time mjdOf r.endTok ≥ epoch ∧
    r.recordType = "CHPART"

/-- A row satisfies the station-level match conditions of the scan
(lines 1061-1070); the facility must differ from the complex name because
the station branch is the `else` of the complex test. -/
def stationMatches (mjdOf : MjdFn) (complexName stationName scName : String) (epoch : ℝ)
    (r : TRKRecord) : Prop :=
  r.spacecraft = scName ∧ (r.signalType = "DOPRNG" ∨ r.signalType = "RANGE") ∧
    r.facility ≠ complexName ∧ r.facility = stationName ∧
    GetTRK223Time mjdOf r.startTok ≤ epoch ∧ GetTRK223Time mjdOf r.endTok ≥ epoch ∧
    r.recordType = "CHPART"

noncomputable instance (mjdOf : MjdFn) (cN scN : String) (epoch : ℝ) (r : TRKRecord) :
    Decidable (complexMatches mjdOf cN scN epoch r) := by
  unfold complexMatches
  infer_instance

noncomputable instance (mjdOf : MjdFn) (cN sN scN : String) (epoch : ℝ) (r : TRKRecord) :
    Decidable (stationMatches mjdOf cN sN scN epoch r) := by
  unfold stationMatches
  infer_instance

/-- The scan step is: record the index as a complex-level match, else as a
station-level match, else keep the accumulator. -/
theorem trkScanStep_eq (mjdOf : MjdFn) (complexName stationName scName : String)
    (epoch : ℝ) (r : TRKRecord) (i : ℕ) (acc : Option ℕ × Option ℕ) :
    trkScanStep mjdOf complexName stationName scName epoch r i acc =
      if complexMatches mjdOf complexName scName epoch r then (some i, acc.2)
      else if stationMatches mjdOf complexName stationName scName epoch r then
        (acc.1, some i)
      else acc := by
  unfold trkScanStep complexMatches stationMatches
  split_ifs <;> first | rfl | tauto

/-- If no row of `db` is a complex-level match, the scan leaves the
complex-level index unchanged. -/
theorem trkScanAux_fst_no_match (mjdOf : MjdFn) (cN sN scN : String) (epoch : ℝ) :
    ∀ (db : List TRKRecord) (i0 : ℕ) (acc : Option ℕ × Option ℕ),
      (∀ r ∈ db, ¬ complexMatches mjdOf cN scN epoch r) →
      (trkScanAux mjdOf cN sN scN epoch db i0 acc).1 = acc.1 := by
  intro db
  induction db with
  | nil => intro i0 acc _; rfl
  | cons r rest ih =>
    intro i0 acc h
    simp only [trkScanAux]
    rw [ih (i0 + 1) _ (fun x hx => h x (List.mem_cons_of_mem _ hx))]
    rw [trkScanStep_eq, if_neg (h r (List.mem_cons_self _ _))]
    split_ifs <;> rfl

/-- If no row of `db` is a station-level match, the scan leaves the
station-level index unchanged. -/
theorem trkScanAux_snd_no_match (mjdOf : MjdFn) (cN sN scN : String) (epoch : ℝ) :
    ∀ (db : List TRKRecord) (i0 : ℕ) (acc : Option ℕ × Option ℕ),
      (∀ r ∈ db, ¬ stationMatches mjdOf cN sN scN epoch r) →
      (trkScanAux mjdOf cN sN scN epoch db i0 acc).2 = acc.2 := by
  intro db
  induction db with
  | nil => intro i0 acc _; rfl
  | cons r rest ih =>
    intro i0 acc h
    simp only [trkScanAux]
    rw [ih (i0 + 1) _ (fun x hx => h x (List.mem_cons_of_mem _ hx))]
    rw [trkScanStep_eq]
    split_ifs with h1 h2
    · rfl
    · exact absurd h2 (h r (List.mem_cons_self _ _))
    · rfl

/-- If exactly the row at position `m` of `db` is a complex-level match, the
scan returns `i0 + m` as the complex-level index. -/
theorem trkScanAux_fst_unique (mjdOf : MjdFn) (cN sN scN : String) (epoch : ℝ) :
    ∀ (db : List TRKRecord) (m i0 : ℕ) (acc : Option ℕ × Option ℕ) (r : TRKRecord),
      db[m]? = some r →
      complexMatches mjdOf cN scN epoch r →
      (∀ n x, db[n]? = some x → n ≠ m → ¬ complexMatches mjdOf cN scN epoch x) →
      (trkScanAux mjdOf cN sN scN epoch db i0 acc).1 = some (i0 + m) := by
  intro db
  induction db with
  | nil => intro m i0 acc r hr; simp at hr
  | cons hd rest ih =>
    intro m i0 acc r hr hmatch huniq
    cases m with
    | zero =>
      rw [List.getElem?_cons_zero, Option.some.injEq] at hr
      subst hr
      simp only [trkScanAux]
      rw [trkScanAux_fst_no_match]
      · rw [trkScanStep_eq, if_pos hmatch]
        simp
      · intro x hx
        obtain ⟨n, hn⟩ := List.mem_iff_getElem?.mp hx
        exact huniq (n + 1) x (by simpa using hn) (by omega)
    | succ m' =>
      rw [List.getElem?_cons_succ] at hr
      have hhd : ¬ complexMatches mjdOf cN scN epoch hd :=
        huniq 0 hd (by simp) (by omega)
      simp only [trkScanAux]
      have := ih m' (i0 + 1)
        (trkScanStep mjdOf cN sN scN epoch hd i0 acc) r hr hmatch
        (fun n x hn hne => huniq (n + 1) x (by simpa using hn) (by omega))
      rw [this]
      congr 1
      omega

/-- If exactly the row at position `m` of `db` is a station-level match, the
scan returns `i0 + m` as the station-level index. -/
theorem trkScanAux_snd_unique (mjdOf : MjdFn) (cN sN scN : String) (epoch : ℝ) :
    ∀ (db : List TRKRecord) (m i0 : ℕ) (acc : Option ℕ × Option ℕ) (r : TRKRecord),
      db[m]? = some r →
      stationMatches mjdOf cN sN scN epoch r →
      (∀ n x, db[n]? = some x → n ≠ m → ¬ stationMatches mjdOf cN sN scN epoch x) →
      (trkScanAux mjdOf cN sN scN epoch db i0 acc).2 = some (i0 + m) := by
  intro db
  induction db with
  | nil => intro m i0 acc r hr; simp at hr
  | cons hd rest ih =>
    intro m i0 acc r hr hmatch huniq
    cases m with
    | zero =>
      rw [List.getElem?_cons_zero, Option.some.injEq] at hr
      subst hr
      simp only [trkScanAux]
      rw [trkScanAux_snd_no_match]
      · rw [trkScanStep_eq]
        have hnc : ¬ complexMatches mjdOf cN scN epoch hd := by
          intro hc
          exact hmatch.2.2.1 hc.2.2.1
        rw [if_neg hnc, if_pos hmatch]
        simp
      · intro x hx
        obtain ⟨n, hn⟩ := List.mem_iff_getElem?.mp hx
        exact huniq (n + 1) x (by simpa using hn) (by omega)
    | succ m' =>
      rw [List.getElem?_cons_succ] at hr
      simp only [trkScanAux]
      have := ih m' (i0 + 1)
        (trkScanStep mjdOf cN sN scN epoch hd i0 acc) r hr hmatch
        (fun n x hn hne => huniq (n + 1) x (by simpa using hn) (by omega))
      rw [this]
      congr 1
      omega

/-- Claim C3: for every record table containing exactly one matching
complex-level CONST entry with first coefficient `k` for the given station,
spacecraft, signal type and an epoch inside its validity window, and no
station-level entry, the empirical-model correction returns exactly
`(k * (refFreq/freq)^2, 0, k * (refFreq/freq)^2 / c)` with
`refFreq = 2295 MHz` and `freq = c / wavelength`; the returned value does not
depend on where the epoch lies within the validity window (the epoch does not
occur in the result formula). -/
theorem calculateTRK223_const_record (mjdOf : MjdFn) (toInt : String → Option ℤ)
    (junk : ℤ) (db : List TRKRecord) (st : TRKState) (m : ℕ) (r : TRKRecord) (k : ℝ)
    (hr : db[m]? = some r)
    (hmatch : complexMatches mjdOf (complexNameOf toInt junk st.groundStationId)
      (scNameOf st.spacecraftId) st.epoch r)
    (huniq : ∀ n x, db[n]? = some x → n ≠ m →
      ¬ complexMatches mjdOf (complexNameOf toInt junk st.groundStationId)
        (scNameOf st.spacecraftId) st.epoch x)
    (hnosta : ∀ x ∈ db, ¬ stationMatches mjdOf (complexNameOf toInt junk st.groundStationId)
      (canonStationId st.groundStationId) (scNameOf st.spacecraftId) st.epoch x)
    (hconst : r.modelType = "CONST") (hk : r.coefs[0]? = some k) :
    (CalculateTRK223 mjdOf toInt junk db st).2 =
      Except.ok
        (k * (2295.0 * 1000000.0 / (speedOfLight / st.waveLength)) *
            (2295.0 * 1000000.0 / (speedOfLight / st.waveLength)),
          0,
          k * (2295.0 * 1000000.0 / (speedOfLight / st.waveLength)) *
              (2295.0 * 1000000.0 / (speedOfLight / st.waveLength)) / speedOfLight) := by
  have hscan : trkScan mjdOf toInt junk db st = (some m, none) := by
    have h1 : (trkScan mjdOf toInt junk db st).1 = some m := by
      have := trkScanAux_fst_unique mjdOf
        (complexNameOf toInt junk st.groundStationId) (canonStationId st.groundStationId)
        (scNameOf st.spacecraftId) st.epoch db m 0 (none, none) r hr hmatch huniq
      simpa [trkScan] using this
    have h2 : (trkScan mjdOf toInt junk db st).2 = none := by
      have := trkScanAux_snd_no_match mjdOf
        (complexNameOf toInt junk st.groundStationId) (canonStationId st.groundStationId)
        (scNameOf st.spacecraftId) st.epoch db 0 (none, none) hnosta
      simpa [trkScan] using this
    rw [Prod.ext_iff]
    exact ⟨h1, h2⟩
  have hget : db.getD m defaultTRKRecord = r := by
    simp [List.getD_eq_getElem?_getD, hr]
  have hk0 : r.coefs.getD 0 0 = k := by
    simp [List.getD_eq_getElem?_getD, hk]
  have hsolve : TRK223Solver mjdOf r st.waveLength st.epoch =
      Except.ok
        (r.coefs.getD 0 0 * (2295.0 * 1000000.0 / (speedOfLight / st.waveLength)) *
          (2295.0 * 1000000.0 / (speedOfLight / st.waveLength))) := by
    simp [TRK223Solver, hconst]
  rw [hk0] at hsolve
  have hres : (CalculateTRK223 mjdOf toInt junk db st).2 =
      trk223Result mjdOf toInt junk db st := rfl
  rw [hres]
  unfold trk223Result
  rw [hscan]
  simp only [hget, hsolve]

/-- Claim C5: if the table scan finds no complex-level record matching the
spacecraft key, signal type, `CHPART` marker and validity window,
`CalculateTRK223()` raises the fatal `RecordNotFound` error; if the scan
finds both a complex-level and a station-level match, the returned range
correction is the sum of the two records' evaluated corrections (and the time
correction is that sum divided by c). -/
theorem calculateTRK223_scan_outcomes (mjdOf : MjdFn) (toInt : String → Option ℤ)
    (junk : ℤ) (db : List TRKRecord) (st : TRKState) :
    ((trkScan mjdOf toInt junk db st).1 = none →
      (CalculateTRK223 mjdOf toInt junk db st).2 =
        Except.error IonoError.recordNotFound) ∧
    (∀ i j v1 v2, trkScan mjdOf toInt junk db st = (some i, some j) →
      TRK223Solver mjdOf (db.getD i defaultTRKRecord) st.waveLength st.epoch =
        Except.ok v1 →
      TRK223Solver mjdOf (db.getD j defaultTRKRecord) st.waveLength st.epoch =
        Except.ok v2 →
      (CalculateTRK223 mjdOf toInt junk db st).2 =
        Except.ok (v1 + v2, 0, (v1 + v2) / speedOfLight)) := by
  have hres : (CalculateTRK223 mjdOf toInt junk db st).2 =
      trk223Result mjdOf toInt junk db st := rfl
  constructor
  · intro h
    rcases hsc : trkScan mjdOf toInt junk db st with ⟨c, s⟩
    rw [hsc] at h
    simp only at h
    subst h
    rw [hres]
    unfold trk223Result
    rw [hsc]
  · intro i j v1 v2 hsc hs1 hs2
    rw [hres]
    unfold trk223Result
    rw [hsc]
    simp only [hs1, hs2]

/-- The abbreviation expansion only acts on the three 3-character
abbreviations, so it fixes any string whose length is not 3. -/
theorem expandAbbrev_eq_self (g : String) (h : g.length ≠ 3) : expandAbbrev g = g := by
  unfold expandAbbrev
  split_ifs with h1 h2 h3
  · subst h1; exact absurd (by decide) h
  · subst h2; exact absurd (by decide) h
  · subst h3; exact absurd (by decide) h
  · rfl

/-- A canonicalized station id is at least 6 characters long. -/
theorem canonStationId_length_ge (g : String) : 6 ≤ (canonStationId g).length := by
  unfold canonStationId
  split_ifs with h
  · rw [String.length_append, String.length_append]
    have h5 : ("DSN(0").length = 5 := by decide
    have h1 : (")").length = 1 := by decide
    omega
  · rw [String.length_append, String.length_append]
    have h4 : ("DSN(").length = 4 := by decide
    have h1 : (")").length = 1 := by decide
    omega

/-- Canonicalizing an id that is already at least 3 characters long and not an
abbreviation just wraps it in `DSN(...)`. -/
theorem canonStationId_of_long (s : String) (h3 : ¬ s.length < 3) (hne : s.length ≠ 3) :
    canonStationId s = "DSN(" ++ s ++ ")" := by
  unfold canonStationId
  rw [expandAbbrev_eq_self s hne]
  rw [if_neg h3]

/-- Canonicalizing twice strictly grows the id, so the canonical form is
never a fixed point. -/
theorem canonStationId_double_ne (g : String) :
    canonStationId (canonStationId g) ≠ canonStationId g := by
  have h6 := canonStationId_length_ge g
  have hform := canonStationId_of_long (canonStationId g) (by omega) (by omega)
  intro heq
  rw [hform] at heq
  have hlen := congrArg String.length heq
  rw [String.length_append, String.length_append] at hlen
  have h4 : ("DSN(").length = 4 := by decide
  have h1 : (")").length = 1 := by decide
  omega

/-- Claim C9: every call to `CalculateTRK223()` overwrites the engine's
`groundStationId` field in place with the canonicalized `DSN(...)`-wrapped
form (after abbreviation expansion of GDS/CAN/MAD) and never restores the
original value, so the empirical correction call is not read-only on engine
state, and a second call observes (and leaves behind) a different station key
than the first. -/
theorem calculateTRK223_mutates_station_id (mjdOf : MjdFn) (toInt : String → Option ℤ)
    (junk : ℤ) (db : List TRKRecord) (st : TRKState) :
    (CalculateTRK223 mjdOf toInt junk db st).1.groundStationId =
        canonStationId st.groundStationId ∧
      (CalculateTRK223 mjdOf toInt junk db
            ((CalculateTRK223 mjdOf toInt junk db st).1)).1.groundStationId ≠
        (CalculateTRK223 mjdOf toInt junk db st).1.groundStationId := by
  exact ⟨rfl, canonStationId_double_ne st.groundStationId⟩

/-- Stub for the external Modified-Julian-Date routine, used in concrete
instantiations. -/
noncomputable def mjdZero : MjdFn := fun _ _ _ _ _ _ => 0

/-- Stub for the external `GmatStringUtil::ToInteger`, used in concrete
instantiations. -/
def toIntStub : String → Option ℤ := fun s => if s = "25" then some 25 else none

/-- All-zero time token fixture. -/
noncomputable def tokZero : TimeTok := ⟨0, 0, 0, 0, 0, 0⟩

/-- Complex-level CONST record fixture (facility DSN complex C10,
spacecraft 7, first coefficient 5). -/
noncomputable def recConstC : TRKRecord :=
  ⟨"RANGE", "CONST", [5], "CHPART", tokZero, tokZero, "DSN(C10)", "SCID(7)"⟩

/-- Station-level CONST record fixture (facility DSN station 25,
spacecraft 7, first coefficient 2). -/
noncomputable def recConstS : TRKRecord :=
  ⟨"RANGE", "CONST", [2], "CHPART", tokZero, tokZero, "DSN(025)", "SCID(7)"⟩

/-- TRK-2-23 engine state fixture: wavelength 1, epoch 0, ground station
"25" (DSN station 25, complex C10), spacecraft id 7. -/
noncomputable def trkStateFx : TRKState := ⟨1, 0, "25", 7⟩

/-- Concrete instantiation of `calculateTRK223_const_record`: a one-record
table holding a single complex-level CONST entry with coefficient 5 yields
exactly the rescaled constant correction triple. -/
theorem calculateTRK223_const_record_witness :
    (CalculateTRK223 mjdZero toIntStub 0 [recConstC] trkStateFx).2 =
      Except.ok
        ((5 : ℝ) * (2295.0 * 1000000.0 / (speedOfLight / (1 : ℝ))) *
            (2295.0 * 1000000.0 / (speedOfLight / (1 : ℝ))),
          0,
          (5 : ℝ) * (2295.0 * 1000000.0 / (speedOfLight / (1 : ℝ))) *
              (2295.0 * 1000000.0 / (speedOfLight / (1 : ℝ))) / speedOfLight) := by
  have hmatch : complexMatches mjdZero (complexNameOf toIntStub 0 trkStateFx.groundStationId)
      (scNameOf trkStateFx.spacecraftId) trkStateFx.epoch recConstC :=
    ⟨by decide, Or.inr (by decide), by decide, le_refl 0, le_refl 0, by decide⟩
  have huniq : ∀ n x, ([recConstC] : List TRKRecord)[n]? = some x → n ≠ 0 →
      ¬ complexMatches mjdZero (complexNameOf toIntStub 0 trkStateFx.groundStationId)
        (scNameOf trkStateFx.spacecraftId) trkStateFx.epoch x := by
    intro n x hn hne
    cases n with
    | zero => exact absurd rfl hne
    | succ n' => simp at hn
  have hnosta : ∀ x ∈ ([recConstC] : List TRKRecord),
      ¬ stationMatches mjdZero (complexNameOf toIntStub 0 trkStateFx.groundStationId)
        (canonStationId trkStateFx.groundStationId)
        (scNameOf trkStateFx.spacecraftId) trkStateFx.epoch x := by
    intro x hx
    rcases List.mem_singleton.mp hx with rfl
    intro hsm
    exact hsm.2.2.1 (by decide)
  exact calculateTRK223_const_record mjdZero toIntStub 0 [recConstC] trkStateFx 0
    recConstC 5 rfl hmatch huniq hnosta rfl rfl

/-- Concrete instantiation of `calculateTRK223_scan_outcomes`: an empty
record table gives the fatal `RecordNotFound` error, and a table carrying one
complex-level and one station-level CONST entry returns the sum of the two
evaluated corrections. -/
theorem calculateTRK223_scan_outcomes_witness :
    (CalculateTRK223 mjdZero toIntStub 0 [] trkStateFx).2 =
        Except.error IonoError.recordNotFound ∧
      (CalculateTRK223 mjdZero toIntStub 0 [recConstC, recConstS] trkStateFx).2 =
        Except.ok
          ((5 : ℝ) * (2295.0 * 1000000.0 / (speedOfLight / trkStateFx.waveLength)) *
                (2295.0 * 1000000.0 / (speedOfLight / trkStateFx.waveLength)) +
              (2 : ℝ) * (2295.0 * 1000000.0 / (speedOfLight / trkStateFx.waveLength)) *
                (2295.0 * 1000000.0 / (speedOfLight / trkStateFx.waveLength)),
            0,
            ((5 : ℝ) * (2295.0 * 1000000.0 / (speedOfLight / trkStateFx.waveLength)) *
                  (2295.0 * 1000000.0 / (speedOfLight / trkStateFx.waveLength)) +
                (2 : ℝ) * (2295.0 * 1000000.0 / (speedOfLight / trkStateFx.waveLength)) *
                  (2295.0 * 1000000.0 / (speedOfLight / trkStateFx.waveLength))) /
              speedOfLight) := by
  constructor
  · exact (calculateTRK223_scan_outcomes mjdZero toIntStub 0 [] trkStateFx).1 rfl
  · have hscanC : (trkScan mjdZero toIntStub 0 [recConstC, recConstS] trkStateFx).1 =
        some 0 := by
      have hmatch : complexMatches mjdZero
          (complexNameOf toIntStub 0 trkStateFx.groundStationId)
          (scNameOf trkStateFx.spacecraftId) trkStateFx.epoch recConstC :=
        ⟨by decide, Or.inr (by decide), by decide, le_refl 0, le_refl 0, by decide⟩
      have huniq : ∀ n x, ([recConstC, recConstS] : List TRKRecord)[n]? = some x → n ≠ 0 →
          ¬ complexMatches mjdZero (complexNameOf toIntStub 0 trkStateFx.groundStationId)
            (scNameOf trkStateFx.spacecraftId) trkStateFx.epoch x := by
        intro n x hn hne
        cases n with
        | zero => exact absurd rfl hne
        | succ n' =>
          cases n' with
          | zero =>
            rw [show ([recConstC, recConstS] : List TRKRecord)[1]? = some recConstS from rfl,
              Option.some.injEq] at hn
            subst hn
            intro hc
            exact (by decide : ¬ (recConstS.facility =
              complexNameOf toIntStub 0 trkStateFx.groundStationId)) hc.2.2.1
          | succ n'' => simp at hn
      have := trkScanAux_fst_unique mjdZero
        (complexNameOf toIntStub 0 trkStateFx.groundStationId)
        (canonStationId trkStateFx.groundStationId)
        (scNameOf trkStateFx.spacecraftId) trkStateFx.epoch
        [recConstC, recConstS] 0 0 (none, none) recConstC rfl hmatch huniq
      simpa [trkScan] using this
    have hscanS : (trkScan mjdZero toIntStub 0 [recConstC, recConstS] trkStateFx).2 =
        some 1 := by
      have hmatch : stationMatches mjdZero
          (complexNameOf toIntStub 0 trkStateFx.groundStationId)
          (canonStationId trkStateFx.groundStationId)
          (scNameOf trkStateFx.spacecraftId) trkStateFx.epoch recConstS :=
        ⟨by decide, Or.inr (by decide), by decide, by decide, le_refl 0, le_refl 0, by decide⟩
      have huniq : ∀ n x, ([recConstC, recConstS] : List TRKRecord)[n]? = some x → n ≠ 1 →
          ¬ stationMatches mjdZero (complexNameOf toIntStub 0 trkStateFx.groundStationId)
            (canonStationId trkStateFx.groundStationId)
            (scNameOf trkStateFx.spacecraftId) trkStateFx.epoch x := by
        intro n x hn hne
        cases n with
        | zero =>
          rw [show ([recConstC, recConstS] : List TRKRecord)[0]? = some recConstC from rfl,
            Option.some.injEq] at hn
          subst hn
          intro hs
          exact hs.2.2.1 (by decide)
        | succ n' =>
          cases n' with
          | zero => exact absurd rfl hne
          | succ n'' => simp at hn
      have := trkScanAux_snd_unique mjdZero
        (complexNameOf toIntStub 0 trkStateFx.groundStationId)
        (canonStationId trkStateFx.groundStationId)
        (scNameOf trkStateFx.spacecraftId) trkStateFx.epoch
        [recConstC, recConstS] 1 0 (none, none) recConstS rfl hmatch huniq
      simpa [trkScan] using this
    have hscan : trkScan mjdZero toIntStub 0 [recConstC, recConstS] trkStateFx =
        (some 0, some 1) := by
      rw [Prod.ext_iff]
      exact ⟨hscanC, hscanS⟩
    have hs1 : TRK223Solver mjdZero
        (([recConstC, recConstS] : List TRKRecord).getD 0 defaultTRKRecord)
        trkStateFx.waveLength trkStateFx.epoch =
        Except.ok ((5 : ℝ) * (2295.0 * 1000000.0 / (speedOfLight / trkStateFx.waveLength)) *
          (2295.0 * 1000000.0 / (speedOfLight / trkStateFx.waveLength))) := by
      rw [show (([recConstC, recConstS] : List TRKRecord).getD 0 defaultTRKRecord) =
        recConstC from rfl]
      simp [TRK223Solver, recConstC]
    have hs2 : TRK223Solver mjdZero
        (([recConstC, recConstS] : List TRKRecord).getD 1 defaultTRKRecord)
        trkStateFx.waveLength trkStateFx.epoch =
        Except.ok ((2 : ℝ) * (2295.0 * 1000000.0 / (speedOfLight / trkStateFx.waveLength)) *
          (2295.0 * 1000000.0 / (speedOfLight / trkStateFx.waveLength))) := by
      rw [show (([recConstC, recConstS] : List TRKRecord).getD 1 defaultTRKRecord) =
        recConstS from rfl]
      simp [TRK223Solver, recConstS]
    exact (calculateTRK223_scan_outcomes mjdZero toIntStub 0
      [recConstC, recConstS] trkStateFx).2 0 1 _ _ hscan hs1 hs2

/-- Counterexample to claim C6 as stated: the record-table parser
(`GetTRK223Time`) maps the two-digit year 68 to 2068 and 69 to 1969, so the
claimed examples "68 maps to 1968" and "69 maps to 2069" are both false. -/
theorem trk223YearNorm_counterexample :
    trk223YearNorm 68 = 2068 ∧ trk223YearNorm 69 = 1969 ∧
      ¬ (trk223YearNorm 68 = 1968 ∧ trk223YearNorm 69 = 2069) := by
  refine ⟨by decide, by decide, ?_⟩
  intro h
  have := h.1
  revert this
  decide

/-- Claim C6 (amended): the two parsers use the pivots stated in the spec
(record-table parser: two-digit year `>= 69` maps into the 1900s, `< 69` into
the 2000s; index-file parser: `>= 58` maps into the 1900s, else the 2000s),
so for the record-table parser the year token 68 maps to 2068 and 69 maps to
1969, while for the index-file (ap.dat) parser 69 maps to 1969 and 68 maps to
1968. -/
theorem year_normalization_pivots :
    trk223YearNorm 68 = 2068 ∧ trk223YearNorm 69 = 1969 ∧
      apYearNorm 69 = 1969 ∧ apYearNorm 68 = 1968 ∧
      ∀ y : ℤ, 0 ≤ y → y ≤ 99 →
        (69 ≤ y → trk223YearNorm y = 1900 + y) ∧
        (y < 69 → trk223YearNorm y = 2000 + y) ∧
        (58 ≤ y → apYearNorm y = 1900 + y) ∧
        (y < 58 → apYearNorm y = 2000 + y) := by
  refine ⟨by decide, by decide, by decide, by decide, ?_⟩
  intro y h0 h99
  unfold trk223YearNorm apYearNorm
  refine ⟨?_, ?_, ?_, ?_⟩ <;> intro h <;> split_ifs <;> omega

/-- Concrete instantiation of `year_normalization_pivots` at year token 70:
the record-table parser yields 1970 and the index-file parser 1970 as well. -/
theorem year_normalization_pivots_witness :
    trk223YearNorm 70 = 1970 ∧ apYearNorm 70 = 1970 := by
  have h := (year_normalization_pivots.2.2.2.2 70 (by norm_num) (by norm_num))
  have h1 := h.1 (by norm_num)
  have h3 := h.2.2.1 (by norm_num)
  norm_num at h1 h3
  exact ⟨h1, h3⟩

/-- Closed form of the TRIG loop: starting at index `i` with harmonic counter
`count` and accumulator `drho`, and with exactly `2*K` coefficients left, the
loop adds `K` cosine/sine pairs at increasing harmonic counters. -/
theorem trigLoop_closed (coefs : List ℝ) (T : ℝ) :
    ∀ (K i count : ℕ) (drho : ℝ), coefs.length = i + 2 * K →
      trigLoop coefs T i count drho =
        drho + ∑ k ∈ Finset.range K,
          (coefs.getD (i + 2 * k) 0 * Real.cos (T * ((count : ℝ) + (k : ℝ))) +
            coefs.getD (i + 2 * k + 1) 0 * Real.sin (T * ((count : ℝ) + (k : ℝ)))) := by
  intro K
  induction K with
  | zero =>
    intro i count drho hlen
    rw [trigLoop, dif_neg (by omega)]
    simp
  | succ K ih =>
    intro i count drho hlen
    rw [trigLoop, dif_pos (by omega)]
    rw [ih (i + 2) (count + 1) _ (by omega)]
    rw [Finset.sum_range_succ']
    have hidx : ∀ k : ℕ, i + 2 + 2 * k = i + 2 * (k + 1) := fun k => by ring
    have hidx' : ∀ k : ℕ, i + 2 + 2 * k + 1 = i + 2 * (k + 1) + 1 := fun k => by ring
    simp only [hidx, hidx', Nat.mul_zero, Nat.add_zero, Nat.cast_zero, add_zero]
    push_cast
    have harg : ∀ x : ℕ, (count : ℝ) + 1 + (x : ℝ) = (count : ℝ) + ((x : ℝ) + 1) := by
      intro x; ring
    simp only [harg]
    ring

/-- Claim C7: for every TRIG record and epoch `t` in its validity window
(and an even-length coefficient list, `2 + 2*K` entries, so that every
cosine/sine pair is complete), the evaluated (pre-rescale) correction is a
truncated Fourier series: the first coefficient sets the angular frequency
applied to the elapsed seconds since window start
(`phase = 2*pi*(t - start)*86400 / coefs[0]`), the second coefficient is the
constant term, and the subsequent coefficients form cosine/sine amplitude
pairs summed over harmonic indices 1, 2, 3, ... -/
theorem trigEval_fourier (mjdOf : MjdFn) (r : TRKRecord) (t : ℝ) (K : ℕ)
    (_hmodel : r.modelType = "TRIG")
    (hlen : r.coefs.length = 2 + 2 * K)
    (_hwin : GetTRK223Time mjdOf r.startTok ≤ t ∧ GetTRK223Time mjdOf r.endTok ≥ t) :
    trigEval r.coefs t (GetTRK223Time mjdOf r.startTok) =
      r.coefs.getD 1 0 +
        ∑ k ∈ Finset.range K,
          (r.coefs.getD (2 * k + 2) 0 *
              Real.cos (2 * Real.pi * (t - GetTRK223Time mjdOf r.startTok) * 86400 /
                r.coefs.getD 0 0 * ((k : ℝ) + 1)) +
            r.coefs.getD (2 * k + 3) 0 *
              Real.sin (2 * Real.pi * (t - GetTRK223Time mjdOf r.startTok) * 86400 /
                r.coefs.getD 0 0 * ((k : ℝ) + 1))) := by
  simp only [trigEval]
  rw [trigLoop_closed r.coefs _ K 2 1 _ (by omega)]
  congr 1
  apply Finset.sum_congr rfl
  intro k _
  have h1 : 2 + 2 * k = 2 * k + 2 := by ring
  rw [h1]
  have h2 : 2 * k + 2 + 1 = 2 * k + 3 := by omega
  rw [h2]
  congr 1
  · congr 1
    push_cast
    ring_nf
  · congr 1
    push_cast
    ring_nf

/-- TRIG record fixture with coefficient list `[1, 2, 3, 4]` (frequency 1,
constant 2, first-harmonic cosine amplitude 3 and sine amplitude 4). -/
noncomputable def recTrig : TRKRecord :=
  ⟨"RANGE", "TRIG", [1, 2, 3, 4], "CHPART", tokZero, tokZero, "DSN(C10)", "SCID(7)"⟩

/-- Concrete instantiation of `trigEval_fourier` for the fixture TRIG record
at the window start. -/
theorem trigEval_fourier_witness :
    recTrig.coefs.length = 2 + 2 * 1 ∧
      trigEval recTrig.coefs 0 (GetTRK223Time mjdZero recTrig.startTok) =
        recTrig.coefs.getD 1 0 +
          ∑ k ∈ Finset.range 1,
            (recTrig.coefs.getD (2 * k + 2) 0 *
                Real.cos (2 * Real.pi * (0 - GetTRK223Time mjdZero recTrig.startTok) * 86400 /
                  recTrig.coefs.getD 0 0 * ((k : ℝ) + 1)) +
              recTrig.coefs.getD (2 * k + 3) 0 *
                Real.sin (2 * Real.pi * (0 - GetTRK223Time mjdZero recTrig.startTok) * 86400 /
                  recTrig.coefs.getD 0 0 * ((k : ℝ) + 1))) :=
  ⟨rfl, trigEval_fourier mjdZero recTrig 0 1 rfl rfl ⟨le_refl 0, le_refl 0⟩⟩

/-- Number of iterations of the TRIG loop of `TRK223Solver` for a coefficient
list of length `n` and loop start index `i`: the loop
`for (i = ...; i < n; i++) { ...; i++; }` advances `i` by 2 per iteration, so
it runs `ceil((n - i)/2) = (n - i + 1)/2` times. -/
def trigIterCount (n i : ℕ) : ℕ := (n - i + 1) / 2

/-- The vector indices read by the TRIG loop of `TRK223Solver`
(lines 1222-1227): iteration `k` reads `coefs[i + 2*k]` and
`coefs[i + 2*k + 1]`. -/
def trigLoopReads (n i : ℕ) : List ℕ :=
  (List.range (trigIterCount n i)).flatMap fun k => [i + 2 * k, i + 2 * k + 1]

/-- The vector indices read by the whole TRIG branch (lines 1215-1229):
`coefs[0]` for the frequency, `coefs[1]` for the constant term, then the loop
from index 2. -/
def trigReads (n : ℕ) : List ℕ := 0 :: 1 :: trigLoopReads n 2

/-- The vector indices read by the CONST branch (line 1213). -/
def constReads : List ℕ := [0]

/-- The vector indices read by the NRMPOW branch (lines 1239-1242). -/
def nrmpowReads (n : ℕ) : List ℕ := List.range n

/-- Counterexample to claim C8 as stated: for a TRIG coefficient list of
length 3 the evaluator reads index 3 (the trailing `coefs[i+1]` of the final
loop iteration), which is not strictly less than the length. -/
theorem trk223SolverReads_counterexample :
    3 ∈ trigReads 3 ∧ ¬ (3 < 3) := by decide

/-- Claim C8 (amended): in `TRK223Solver`, the NRMPOW branch reads only
indices strictly below the coefficient-list length; the CONST branch's read
of index 0 is in bounds exactly when the list is nonempty; and the TRIG
branch's reads are all in bounds exactly when the list length is even and at
least 2 (for an odd length the final iteration reads index = length). -/
theorem trk223SolverReads_characterization (n : ℕ) :
    (∀ x ∈ nrmpowReads n, x < n) ∧
      ((∀ x ∈ constReads, x < n) ↔ 1 ≤ n) ∧
      ((∀ x ∈ trigReads n, x < n) ↔ 2 ≤ n ∧ n % 2 = 0) := by
  refine ⟨?_, ?_, ?_⟩
  · intro x hx
    exact List.mem_range.mp hx
  · constructor
    · intro h
      have := h 0 (by decide)
      omega
    · intro h x hx
      simp only [constReads, List.mem_singleton] at hx
      omega
  · constructor
    · intro h
      have h1 : 1 < n := h 1 (by simp [trigReads])
      refine ⟨by omega, ?_⟩
      by_contra hodd
      have hmem : n ∈ trigLoopReads n 2 := by
        simp only [trigLoopReads, List.mem_flatMap, List.mem_range, List.mem_cons,
          List.mem_singleton, List.not_mem_nil, or_false]
        refine ⟨(n - 3) / 2, ?_, ?_⟩
        · unfold trigIterCount
          omega
        · omega
      have := h n (by simp [trigReads, hmem])
      omega
    · rintro ⟨h2, heven⟩ x hx
      simp only [trigReads, List.mem_cons] at hx
      rcases hx with rfl | rfl | hx
      · omega
      · omega
      · simp only [trigLoopReads, List.mem_flatMap, List.mem_range, List.mem_cons,
          List.mem_singleton, List.not_mem_nil, or_false] at hx
        obtain ⟨k, hk, hx⟩ := hx
        unfold trigIterCount at hk
        rcases hx with rfl | rfl <;> omega
